import Mathlib

/-!
Verification of the command-dispatch and feedback-composition layer of the
FreeCAD MCP bridge (`src/freecad_mcp/server.py`).

The embedding is shallow and pure: the module-level global `_only_text_feedback`
becomes an explicit `onlyText : Bool` argument threaded to every handler, the
module-level connection singleton `_freecad_connection` becomes explicit state
passed to `get_freecad_connection`, and every remote call performed through the
`xmlrpc` proxy becomes an input describing its outcome (`Except String α`,
where `Except.error e` stands for a raised exception carrying message `e`).
A handler whose Python body lets an exception escape to the hosting protocol
layer is modelled as returning `Except.error`; a handler that returns a list of
content items normally is modelled as returning `Except.ok` of that list.
-/

namespace FreeCADMCP

/-- A feedback item of the response envelope: `TextContent` or `ImageContent`
from `mcp.types` (the `type` tag of the Python objects is determined by the
constructor, `mimeType` is kept explicit). -/
inductive ContentItem where
  | text (text : String)
  | image (data : String) (mimeType : String)
deriving DecidableEq

/-- The response dictionary of a stateful remote request.  The Python side is a
dict; the handlers read the keys `success`, `document_name`, `object_name`,
`message` and `error`, so those are the modelled fields. -/
structure RemoteResult where
  success : Bool
  document_name : String
  object_name : String
  message : String
  error : String
deriving DecidableEq

/-- Whether `pat` is a leading segment of a character list (helper for the
Python substring test `pat in haystack`). -/
def leadsWith : List Char → List Char → Bool
  | [], _ => true
  | _ :: _, [] => false
  | a :: as, b :: bs => a == b && leadsWith as bs

/-- Whether `pat` occurs contiguously inside a character list. -/
def occursIn (pat : List Char) : List Char → Bool
  | [] => leadsWith pat []
  | b :: bs => leadsWith pat (b :: bs) || occursIn pat bs

/-- The Python substring test `needle in haystack` on strings. -/
def strContains (haystack needle : String) : Bool :=
  occursIn needle.data haystack.data

/-! ### Connection Lifecycle Manager (`get_freecad_connection`, lines 121-135)

The module global `_freecad_connection : FreeCADConnection | None` is the
explicit `state` argument; the remote's answer to the liveness check is the
`pingOk` input; `pings` counts how many ping requests this call issued. -/

/-- The Remote Session Client handle: `FreeCADConnection(host, port)` wraps one
`xmlrpc` proxy at a fixed address. -/
structure FreeCADConnection where
  host : String
  port : Nat
deriving DecidableEq

/-- Observable outcome of one call to `get_freecad_connection`: the returned
handle or the raised exception, the new value of the singleton slot, and the
number of liveness checks (ping requests) issued during the call. -/
structure GetConnectionResult where
  result : Except String FreeCADConnection
  state : Option FreeCADConnection
  pings : Nat

/-- Message of the exception raised when the first ping fails (line 132-134). -/
def connectionFailureMsg : String :=
  "Failed to connect to FreeCAD. Make sure the FreeCAD addon is running."

/-- `get_freecad_connection()` (lines 124-135).  The liveness check
`self.server.ping()` is itself a remote call, so its outcome is the `ping`
input: `Except.ok b` when the call returns `b`, `Except.error e` when it
raises (the usual xmlrpc behaviour for an unreachable host).  With an empty
slot the code first assigns the freshly constructed client to the global
(line 128) and then pings it: if the ping returns false, the slot is reset to
`None` (line 131) before raising; if the ping itself raises, the exception
escapes before that reset runs, so the slot keeps the never-pinged handle.  A
populated slot is returned without pinging. -/
def get_freecad_connection (ping : Except String Bool) (state : Option FreeCADConnection) :
    GetConnectionResult :=
  match state with
  | some c => ⟨Except.ok c, some c, 0⟩
  | none =>
      match ping with
      | Except.error e => ⟨Except.error e, some ⟨"localhost", 9875⟩, 1⟩
      | Except.ok true => ⟨Except.ok ⟨"localhost", 9875⟩, some ⟨"localhost", 9875⟩, 1⟩
      | Except.ok false => ⟨Except.error connectionFailureMsg, none, 1⟩

/-! ### Screenshot Availability Guard (`FreeCADConnection.get_active_screenshot`,
lines 45-79) -/

/-- View types denylisted by the introspection script (line 56). -/
def unsupported_views : List String :=
  ["SpreadsheetGui::SheetView", "DrawingGui::DrawingView", "TechDrawGui::MDIViewPage"]

/-- The state of the remote GUI that the introspection script inspects:
either no active document/view, or an active view of a given type that does or
does not expose `saveImage`. -/
inductive ViewState where
  | noActiveView : ViewState
  | activeView (viewType : String) (hasSaveImage : Bool) : ViewState

/-- What the introspection script of `get_active_screenshot` (lines 48-67)
prints for a given view state. -/
def introspectionPrintout : ViewState → String
  | ViewState.noActiveView => "No active view"
  | ViewState.activeView t hasSave =>
      if unsupported_views.contains t || !hasSave then
        "Current view does not support screenshots"
      else
        "Current view supports screenshots: " ++ t

/-- Modelled from the spec: the remote script-execution facility (the FreeCAD
addon's `execute_code` endpoint, which is part of this repository but not under
`src/`) answers a script that runs without error with `success = true` and the
script's printed output as the `message` payload (spec chapter 6: `executeCode`
responds `{success, message | error}`; chapter 4.3: the view introspection is
"delegated to the remote script-execution facility"). -/
def introspection_result (v : ViewState) : RemoteResult :=
  ⟨true, "", "", introspectionPrintout v, ""⟩

/-- The marker the guard looks for in the introspection message (line 70). -/
def screenshotUnsupportedMarker : String :=
  "Current view does not support screenshots"

/-- Observable outcome of `get_active_screenshot`: the returned value and
whether the screenshot request itself was issued to the remote endpoint. -/
structure ScreenshotAttempt where
  screenshot : Option String
  requestIssued : Bool
deriving DecidableEq

/-- `get_active_screenshot` (lines 45-79).  Inputs describe the two remote
interactions: the outcome of the `execute_code` introspection request and the
outcome of the `get_active_screenshot` remote request (each `Except.error`
standing for a raised exception, absorbed by the method's `except` clause).
The guard skips the screenshot request when the introspection result is not a
success or its message contains the unsupported-view marker; it never raises. -/
def get_active_screenshot (introspection : Except String RemoteResult)
    (shot : Except String (Option String)) : ScreenshotAttempt :=
  match introspection with
  | Except.error _ => ⟨none, false⟩
  | Except.ok result =>
      if !result.success || strContains result.message screenshotUnsupportedMarker then
        ⟨none, false⟩
      else
        match shot with
        | Except.error _ => ⟨none, true⟩
        | Except.ok s => ⟨s, true⟩

/-! ### Response Envelope Builder (`add_screenshot_if_available`, lines 139-150) -/

/-- The fixed explanatory note appended when no screenshot is available and
text-only mode is off (lines 145-149). -/
def previewUnavailableNote : String :=
  "Note: Visual preview is unavailable in the current view type (such as TechDraw or Spreadsheet). Switch to a 3D view to see visual feedback."

/-- The absence-explanation text item. -/
def absenceNote : ContentItem := ContentItem.text previewUnavailableNote

/-- `add_screenshot_if_available(response, screenshot)` (lines 139-150), with
the global `_only_text_feedback` as the explicit first argument: append one
image item when a screenshot is present and text-only mode is off, append the
explanatory note when no screenshot is present and text-only mode is off, and
otherwise return the response unchanged. -/
def add_screenshot_if_available (onlyText : Bool) (response : List ContentItem)
    (screenshot : Option String) : List ContentItem :=
  match screenshot, onlyText with
  | some s, false => response ++ [ContentItem.image s "image/png"]
  | none, false => response ++ [ContentItem.text previewUnavailableNote]
  | _, true => response

/-! ### Operation handlers

Every handler takes the global feedback mode `onlyText`, the outcome `conn` of
`get_freecad_connection()` (which each handler calls before entering its `try`
block, so an exception there escapes the handler), then its Python arguments,
then the outcomes of its remote calls, and, where the handler requests one, the
screenshot returned by the Availability Guard (which never raises, so it is a
plain `Option String`). -/

/-- The control-flow pattern shared verbatim by the sixteen handlers
(`create_object` ... `sketch_close_edit`): obtain the session outside `try`;
inside `try` issue the primary remote call and fetch a screenshot; build a
one-text envelope from the result's `success` flag (`successText` from the
result, or `failText` of the result's `error`) and delegate to
`add_screenshot_if_available`; any exception of the primary call is caught and
rendered as `failText` of the exception message. -/
def standard_tool_envelope (onlyText : Bool) (conn : Except String Unit)
    (successText : RemoteResult → String) (failText : String → String)
    (res : Except String RemoteResult) (screenshot : Option String) :
    Except String (List ContentItem) :=
  match conn with
  | Except.error e => Except.error e
  | Except.ok _ =>
      match res with
      | Except.ok r =>
          if r.success then
            Except.ok (add_screenshot_if_available onlyText
              [ContentItem.text (successText r)] screenshot)
          else
            Except.ok (add_screenshot_if_available onlyText
              [ContentItem.text (failText r.error)] screenshot)
      | Except.error e =>
          Except.ok [ContentItem.text (failText e)]

/-- `create_document` (lines 153-186): no screenshot is requested and the
envelope is always a single text item; the session is obtained outside `try`. -/
def create_document (onlyText : Bool) (conn : Except String Unit) (name : String)
    (res : Except String RemoteResult) : Except String (List ContentItem) :=
  match conn with
  | Except.error e => Except.error e
  | Except.ok _ =>
      match res with
      | Except.ok r =>
          if r.success then
            Except.ok [ContentItem.text
              ("Document '" ++ r.document_name ++ "' created successfully")]
          else
            Except.ok [ContentItem.text ("Failed to create document: " ++ r.error)]
      | Except.error e =>
          Except.ok [ContentItem.text ("Failed to create document: " ++ e)]

/-- `create_object` (lines 189-333). -/
def create_object (onlyText : Bool) (conn : Except String Unit)
    (doc_name obj_type obj_name : String) (analysis_name : Option String)
    (obj_properties : Option (List (String × String)))
    (res : Except String RemoteResult) (screenshot : Option String) :
    Except String (List ContentItem) :=
  standard_tool_envelope onlyText conn
    (fun r => "Object '" ++ r.object_name ++ "' created successfully")
    (fun e => "Failed to create object: " ++ e) res screenshot

/-- `edit_object` (lines 336-370). -/
def edit_object (onlyText : Bool) (conn : Except String Unit)
    (doc_name obj_name : String) (obj_properties : List (String × String))
    (res : Except String RemoteResult) (screenshot : Option String) :
    Except String (List ContentItem) :=
  standard_tool_envelope onlyText conn
    (fun r => "Object '" ++ r.object_name ++ "' edited successfully")
    (fun e => "Failed to edit object: " ++ e) res screenshot

/-- `delete_object` (lines 373-403). -/
def delete_object (onlyText : Bool) (conn : Except String Unit)
    (doc_name obj_name : String)
    (res : Except String RemoteResult) (screenshot : Option String) :
    Except String (List ContentItem) :=
  standard_tool_envelope onlyText conn
    (fun r => "Object '" ++ r.object_name ++ "' deleted successfully")
    (fun e => "Failed to delete object: " ++ e) res screenshot

/-- `execute_code` (lines 406-435). -/
def execute_code (onlyText : Bool) (conn : Except String Unit) (code : String)
    (res : Except String RemoteResult) (screenshot : Option String) :
    Except String (List ContentItem) :=
  standard_tool_envelope onlyText conn
    (fun r => "Code executed successfully: " ++ r.message)
    (fun e => "Failed to execute code: " ++ e) res screenshot

/-- `get_view` (lines 438-464): obtain the session (outside any `try`; there is
no `try` at all), fetch a screenshot through the guard, and return either a
single image item or a single fixed text item.  The global
`_only_text_feedback` is never consulted by this handler. -/
def get_view (onlyText : Bool) (conn : Except String Unit) (view_name : String)
    (screenshot : Option String) : Except String (List ContentItem) :=
  match conn with
  | Except.error e => Except.error e
  | Except.ok _ =>
      match screenshot with
      | some s => Except.ok [ContentItem.image s "image/png"]
      | none => Except.ok [ContentItem.text
          "Cannot get screenshot in the current view type (such as TechDraw or Spreadsheet)"]

/-- `insert_part_from_library` (lines 467-496). -/
def insert_part_from_library (onlyText : Bool) (conn : Except String Unit)
    (relative_path : String)
    (res : Except String RemoteResult) (screenshot : Option String) :
    Except String (List ContentItem) :=
  standard_tool_envelope onlyText conn
    (fun r => "Part inserted from library: " ++ r.message)
    (fun e => "Failed to insert part from library: " ++ e) res screenshot

/-- `json.dumps` of a Python list: a bracketed, comma-separated rendering.  The
entries (already-rendered element dumps) are kept opaque. -/
def json_dumps_list (entries : List String) : String :=
  "[" ++ String.intercalate ", " entries ++ "]"

/-- `json.dumps` of a Python dict: a braced rendering with opaque inside. -/
def json_dumps_dict (inner : String) : String :=
  "\x7b" ++ inner ++ "\x7d"

/-- `json.dumps` of a Python list of strings (each element quoted). -/
def json_dumps_string_list (xs : List String) : String :=
  "[" ++ String.intercalate ", " (xs.map (fun s => "\"" ++ s ++ "\"")) ++ "]"

/-- `get_objects` (lines 499-521): inside `try`, fetch a screenshot, dump the
remote object list as one text item, and delegate to the builder; an exception
of the remote query is caught and rendered as a failure text. -/
def get_objects (onlyText : Bool) (conn : Except String Unit) (doc_name : String)
    (screenshot : Option String) (objs : Except String (List String)) :
    Except String (List ContentItem) :=
  match conn with
  | Except.error e => Except.error e
  | Except.ok _ =>
      match objs with
      | Except.ok entries =>
          Except.ok (add_screenshot_if_available onlyText
            [ContentItem.text (json_dumps_list entries)] screenshot)
      | Except.error e =>
          Except.ok [ContentItem.text ("Failed to get objects: " ++ e)]

/-- `get_object` (lines 524-547): like `get_objects` for a single object (a
dict, so its dump is braced). -/
def get_object (onlyText : Bool) (conn : Except String Unit)
    (doc_name obj_name : String)
    (screenshot : Option String) (obj : Except String String) :
    Except String (List ContentItem) :=
  match conn with
  | Except.error e => Except.error e
  | Except.ok _ =>
      match obj with
      | Except.ok inner =>
          Except.ok (add_screenshot_if_available onlyText
            [ContentItem.text (json_dumps_dict inner)] screenshot)
      | Except.error e =>
          Except.ok [ContentItem.text ("Failed to get object: " ++ e)]

/-- `get_parts_list` (lines 550-563): no `try` block, so an exception of the
remote query escapes the handler; a non-empty catalog is dumped as one text
item, an empty one is replaced by a descriptive text item. -/
def get_parts_list (onlyText : Bool) (conn : Except String Unit)
    (parts : Except String (List String)) : Except String (List ContentItem) :=
  match conn with
  | Except.error e => Except.error e
  | Except.ok _ =>
      match parts with
      | Except.error e => Except.error e
      | Except.ok ps =>
          if ps.isEmpty then
            Except.ok [ContentItem.text
              "No parts found in the parts library. You must add parts_library addon."]
          else
            Except.ok [ContentItem.text (json_dumps_string_list ps)]

/-- `create_sketch` (lines 598-706); the synthesized script body is an opaque
request payload, its outcome is the `res` input. -/
def create_sketch (onlyText : Bool) (conn : Except String Unit)
    (doc_name sketch_name plane : String) (body_name : Option String)
    (res : Except String RemoteResult) (screenshot : Option String) :
    Except String (List ContentItem) :=
  standard_tool_envelope onlyText conn
    (fun _ => "Sketch '" ++ sketch_name ++ "' created successfully on " ++ plane ++ " plane")
    (fun e => "Failed to create sketch: " ++ e) res screenshot

/-- `sketch_add_point` (lines 709-770). -/
def sketch_add_point (onlyText : Bool) (conn : Except String Unit)
    (doc_name sketch_name : String) (x y : Float)
    (res : Except String RemoteResult) (screenshot : Option String) :
    Except String (List ContentItem) :=
  standard_tool_envelope onlyText conn
    (fun _ => "Point added to sketch '" ++ sketch_name ++ "' at (" ++ toString x ++
      ", " ++ toString y ++ ")")
    (fun e => "Failed to add point: " ++ e) res screenshot

/-- `sketch_add_line` (lines 773-842). -/
def sketch_add_line (onlyText : Bool) (conn : Except String Unit)
    (doc_name sketch_name : String) (x1 y1 x2 y2 : Float)
    (res : Except String RemoteResult) (screenshot : Option String) :
    Except String (List ContentItem) :=
  standard_tool_envelope onlyText conn
    (fun _ => "Line added to sketch '" ++ sketch_name ++ "' from (" ++ toString x1 ++
      ", " ++ toString y1 ++ ") to (" ++ toString x2 ++ ", " ++ toString y2 ++ ")")
    (fun e => "Failed to add line: " ++ e) res screenshot

/-- `sketch_add_circle` (lines 845-911). -/
def sketch_add_circle (onlyText : Bool) (conn : Except String Unit)
    (doc_name sketch_name : String) (center_x center_y radius : Float)
    (res : Except String RemoteResult) (screenshot : Option String) :
    Except String (List ContentItem) :=
  standard_tool_envelope onlyText conn
    (fun _ => "Circle added to sketch '" ++ sketch_name ++ "' with center at (" ++
      toString center_x ++ ", " ++ toString center_y ++ ") and radius " ++ toString radius)
    (fun e => "Failed to add circle: " ++ e) res screenshot

/-- `sketch_add_arc` (lines 914-996). -/
def sketch_add_arc (onlyText : Bool) (conn : Except String Unit)
    (doc_name sketch_name : String) (center_x center_y radius start_angle end_angle : Float)
    (res : Except String RemoteResult) (screenshot : Option String) :
    Except String (List ContentItem) :=
  standard_tool_envelope onlyText conn
    (fun _ => "Arc added to sketch '" ++ sketch_name ++ "' with center at (" ++
      toString center_x ++ ", " ++ toString center_y ++ "), radius " ++ toString radius ++
      ", from " ++ toString start_angle ++ "째 to " ++ toString end_angle ++ "째")
    (fun e => "Failed to add arc: " ++ e) res screenshot

/-- `sketch_add_rectangle` (lines 999-1089). -/
def sketch_add_rectangle (onlyText : Bool) (conn : Except String Unit)
    (doc_name sketch_name : String) (x1 y1 x2 y2 : Float)
    (res : Except String RemoteResult) (screenshot : Option String) :
    Except String (List ContentItem) :=
  standard_tool_envelope onlyText conn
    (fun _ => "Rectangle added to sketch '" ++ sketch_name ++ "' from (" ++ toString x1 ++
      ", " ++ toString y1 ++ ") to (" ++ toString x2 ++ ", " ++ toString y2 ++ ")")
    (fun e => "Failed to add rectangle: " ++ e) res screenshot

/-- `sketch_add_polyline` (lines 1092-1207). -/
def sketch_add_polyline (onlyText : Bool) (conn : Except String Unit)
    (doc_name sketch_name : String) (points : List (Float × Float)) (closed : Bool)
    (res : Except String RemoteResult) (screenshot : Option String) :
    Except String (List ContentItem) :=
  standard_tool_envelope onlyText conn
    (fun _ => "Polyline added to sketch '" ++ sketch_name ++ "' with " ++
      toString points.length ++ " points, closed: " ++ (if closed then "True" else "False"))
    (fun e => "Failed to add polyline: " ++ e) res screenshot

/-- `sketch_add_ellipse` (lines 1210-1294). -/
def sketch_add_ellipse (onlyText : Bool) (conn : Except String Unit)
    (doc_name sketch_name : String) (center_x center_y major_radius minor_radius angle : Float)
    (res : Except String RemoteResult) (screenshot : Option String) :
    Except String (List ContentItem) :=
  standard_tool_envelope onlyText conn
    (fun _ => "Ellipse added to sketch '" ++ sketch_name ++ "' with center at (" ++
      toString center_x ++ ", " ++ toString center_y ++ "), major radius " ++
      toString major_radius ++ ", minor radius " ++ toString minor_radius)
    (fun e => "Failed to add ellipse: " ++ e) res screenshot

/-- `sketch_add_regular_polygon` (lines 1297-1411). -/
def sketch_add_regular_polygon (onlyText : Bool) (conn : Except String Unit)
    (doc_name sketch_name : String) (center_x center_y radius : Float) (sides : Int)
    (angle : Float)
    (res : Except String RemoteResult) (screenshot : Option String) :
    Except String (List ContentItem) :=
  standard_tool_envelope onlyText conn
    (fun _ => "Regular " ++ toString sides ++ "-sided polygon added to sketch '" ++
      sketch_name ++ "' with center at (" ++ toString center_x ++ ", " ++
      toString center_y ++ ") and radius " ++ toString radius)
    (fun e => "Failed to add polygon: " ++ e) res screenshot

/-- The `Literal` type of `sketch_add_constraint`'s `constraint_type` argument. -/
inductive ConstraintType where
  | horizontal | vertical | parallelC | perpendicular | tangent | equalC
  | symmetric | distance | radius | angle | coincident | pointOnObject
deriving DecidableEq

/-- The literal string of each constraint type. -/
def constraint_type_str : ConstraintType → String
  | ConstraintType.horizontal => "Horizontal"
  | ConstraintType.vertical => "Vertical"
  | ConstraintType.parallelC => "Parallel"
  | ConstraintType.perpendicular => "Perpendicular"
  | ConstraintType.tangent => "Tangent"
  | ConstraintType.equalC => "Equal"
  | ConstraintType.symmetric => "Symmetric"
  | ConstraintType.distance => "Distance"
  | ConstraintType.radius => "Radius"
  | ConstraintType.angle => "Angle"
  | ConstraintType.coincident => "Coincident"
  | ConstraintType.pointOnObject => "PointOnObject"

/-- `sketch_add_constraint` (lines 1414-1517). -/
def sketch_add_constraint (onlyText : Bool) (conn : Except String Unit)
    (doc_name sketch_name : String) (constraint_type : ConstraintType)
    (geometry_indices : List Int) (value : Option Float) (point_indices : Option (List Int))
    (res : Except String RemoteResult) (screenshot : Option String) :
    Except String (List ContentItem) :=
  standard_tool_envelope onlyText conn
    (fun _ => constraint_type_str constraint_type ++
      " constraint added to sketch '" ++ sketch_name ++ "'")
    (fun e => "Failed to add constraint: " ++ e) res screenshot

/-- `sketch_close_edit` (lines 1520-1576). -/
def sketch_close_edit (onlyText : Bool) (conn : Except String Unit)
    (doc_name sketch_name : String)
    (res : Except String RemoteResult) (screenshot : Option String) :
    Except String (List ContentItem) :=
  standard_tool_envelope onlyText conn
    (fun _ => "Closed editing mode for sketch '" ++ sketch_name ++ "'")
    (fun e => "Failed to close sketch editing: " ++ e) res screenshot

/-! ### Derived notions used by the statements -/

/-- Number of image items in an envelope. -/
def imageCount : List ContentItem → Nat
  | [] => 0
  | ContentItem.image _ _ :: rest => imageCount rest + 1
  | ContentItem.text _ :: rest => imageCount rest

/-- A property of the envelope a handler returns, trivially satisfied when the
handler instead lets an exception escape. -/
def onEnvelope (P : List ContentItem → Prop) : Except String (List ContentItem) → Prop
  | Except.ok items => P items
  | Except.error _ => True

/-- The envelope guarantee of the spec: at least one item, at most one image
item, and an image item never coexists with the absence-explanation note. -/
def wellFormedEnvelope (items : List ContentItem) : Prop :=
  1 ≤ items.length ∧ imageCount items ≤ 1 ∧
    ¬(1 ≤ imageCount items ∧ absenceNote ∈ items)

/-! ### Helper lemmas -/

@[simp] theorem onEnvelope_ok (P : List ContentItem → Prop) (l : List ContentItem) :
    onEnvelope P (Except.ok l) = P l := rfl

@[simp] theorem onEnvelope_error (P : List ContentItem → Prop) (e : String) :
    onEnvelope P (Except.error e) = True := rfl

@[simp] theorem add_screenshot_text_only (r : List ContentItem) (s : Option String) :
    add_screenshot_if_available true r s = r := by
  cases s <;> rfl

theorem add_screenshot_some (r : List ContentItem) (d : String) :
    add_screenshot_if_available false r (some d) = r ++ [ContentItem.image d "image/png"] := rfl

theorem add_screenshot_none (r : List ContentItem) :
    add_screenshot_if_available false r none = r ++ [ContentItem.text previewUnavailableNote] :=
  rfl

theorem ne_note_of_head (s : String) (c : Char) (h : s.data.head? = some c)
    (hc : c ≠ 'N') : s ≠ previewUnavailableNote := by
  intro hs
  rw [hs] at h
  have h2 : previewUnavailableNote.data.head? = some 'N' := rfl
  rw [h] at h2
  exact hc (Option.some.inj h2)

theorem wf_single (t : String) : wellFormedEnvelope [ContentItem.text t] := by
  refine ⟨by simp, by simp [imageCount], ?_⟩
  rintro ⟨h, -⟩
  simp [imageCount] at h

theorem wf_single_image (d m : String) : wellFormedEnvelope [ContentItem.image d m] := by
  refine ⟨by simp, by simp [imageCount], ?_⟩
  rintro ⟨-, hmem⟩
  simp [absenceNote] at hmem

theorem wf_pair_note (t : String) :
    wellFormedEnvelope [ContentItem.text t, absenceNote] := by
  refine ⟨by simp, by simp [imageCount, absenceNote], ?_⟩
  rintro ⟨h, -⟩
  simp [imageCount, absenceNote] at h

theorem wf_pair_image (t d m : String) (ht : t ≠ previewUnavailableNote) :
    wellFormedEnvelope [ContentItem.text t, ContentItem.image d m] := by
  refine ⟨by simp, by simp [imageCount], ?_⟩
  rintro ⟨-, hmem⟩
  simp [absenceNote] at hmem
  exact ht hmem.symm

theorem wf_builder (m : Bool) (s : Option String) (t : String)
    (ht : t ≠ previewUnavailableNote) :
    wellFormedEnvelope (add_screenshot_if_available m [ContentItem.text t] s) := by
  cases m with
  | true => cases s <;> exact wf_single t
  | false =>
    cases s with
    | some d => exact wf_pair_image t d "image/png" ht
    | none => exact wf_pair_note t

theorem ste_wellFormed (m : Bool) (conn : Except String Unit)
    (st : RemoteResult → String) (ft : String → String)
    (res : Except String RemoteResult) (s : Option String)
    (hst : ∀ r : RemoteResult, st r ≠ previewUnavailableNote)
    (hft : ∀ e : String, ft e ≠ previewUnavailableNote) :
    onEnvelope wellFormedEnvelope (standard_tool_envelope m conn st ft res s) := by
  cases conn with
  | error e => trivial
  | ok u =>
    cases res with
    | error e => exact wf_single (ft e)
    | ok r =>
      cases hs : r.success <;>
        simp only [standard_tool_envelope, hs, if_true, if_false,
          Bool.false_eq_true, ite_false, ite_true, onEnvelope_ok]
      · exact wf_builder m s (ft r.error) (hft r.error)
      · exact wf_builder m s (st r) (hst r)

theorem ste_text_only (conn : Except String Unit)
    (st : RemoteResult → String) (ft : String → String)
    (res : Except String RemoteResult) (s : Option String) :
    onEnvelope (fun items => imageCount items = 0)
      (standard_tool_envelope true conn st ft res s) := by
  cases conn with
  | error e => trivial
  | ok u =>
    cases res with
    | error e => exact rfl
    | ok r =>
      cases hs : r.success <;>
        simp [standard_tool_envelope, hs, imageCount]

theorem ste_last_note (st : RemoteResult → String) (ft : String → String)
    (r : RemoteResult) :
    onEnvelope (fun items => items.getLast? = some absenceNote)
      (standard_tool_envelope false (Except.ok ()) st ft (Except.ok r) none) := by
  cases hs : r.success <;>
    simp [standard_tool_envelope, hs, add_screenshot_none, absenceNote, List.getLast?]

/-! ### Claims -/

/-- Claim C3, counterexample: in text-only mode the builder substitutes no
explanatory note at all — building an envelope from the single text item "ok"
with no screenshot leaves the envelope exactly `[text "ok"]`, which does not
contain the absence-explanation note, contrary to the claim that the image's
absence "is explained by a substituted text note". -/
theorem text_only_mode_no_substituted_note :
    add_screenshot_if_available true [ContentItem.text "ok"] none = [ContentItem.text "ok"] ∧
    ([ContentItem.text "ok"].contains absenceNote) = false := by
  constructor
  · rfl
  · decide

/-- Claim C3, amended: while text-only mode is active, no image item is
included and nothing is substituted in its place — the builder returns the
response unchanged; the explanatory note is appended exactly when text-only
mode is off and the screenshot is absent. -/
theorem builder_text_only_unchanged_note_otherwise :
    (∀ (r : List ContentItem) (s : Option String),
      add_screenshot_if_available true r s = r) ∧
    (∀ r : List ContentItem,
      add_screenshot_if_available false r none = r ++ [absenceNote]) := by
  exact ⟨fun r s => add_screenshot_text_only r s, fun r => rfl⟩

/-- Claim C6: the Connection Lifecycle Manager's get operation is idempotent —
whenever the singleton slot already holds a handle, `get_freecad_connection`
returns that same handle, leaves the slot unchanged and issues zero ping
requests, whatever the remote's ping behaviour would be; in particular the
second of two calls after a first successful call returns the first call's
handle with no second liveness check. -/
theorem get_connection_idempotent :
    (∀ (ping : Except String Bool) (c : FreeCADConnection),
      get_freecad_connection ping (some c) = ⟨Except.ok c, some c, 0⟩) ∧
    (∀ ping : Except String Bool,
      (get_freecad_connection ping
          (get_freecad_connection (Except.ok true) none).state).result
          = (get_freecad_connection (Except.ok true) none).result ∧
      (get_freecad_connection ping
          (get_freecad_connection (Except.ok true) none).state).pings = 0) := by
  exact ⟨fun ping c => rfl, fun ping => ⟨rfl, rfl⟩⟩

/-- Claim C7, evaluation at the failing input: when the liveness check itself
raises (the usual failure mode of an unreachable xmlrpc host), the exception
escapes `get_freecad_connection` before the reset of the singleton slot runs,
so the slot keeps the just-constructed, never-pinged handle, and a later call
returns that poisoned handle with zero ping requests — contrary to the claim
(and to the evident purpose of the reset on the returns-false path, line 131)
that on a failed first ping the slot is empty again and a later call attempts
construction and pings anew. -/
theorem get_connection_keeps_unpinged_handle_on_ping_exception :
    (get_freecad_connection (Except.error "connection refused") none).state
        = some ⟨"localhost", 9875⟩ ∧
    (get_freecad_connection (Except.error "connection refused") none).result
        = Except.error "connection refused" ∧
    (get_freecad_connection (Except.ok true)
        (get_freecad_connection (Except.error "connection refused") none).state).result
        = Except.ok ⟨"localhost", 9875⟩ ∧
    (get_freecad_connection (Except.ok true)
        (get_freecad_connection (Except.error "connection refused") none).state).pings
        = 0 := by
  exact ⟨rfl, rfl, rfl, rfl⟩

/-- On the other ping-failure path — the ping request completes and returns
false — the manager does reset the slot to `None` before raising, and a later
call attempts construction again, pinging anew. -/
theorem get_connection_discards_state_on_ping_false :
    (get_freecad_connection (Except.ok false) none).state = none ∧
    (get_freecad_connection (Except.ok false) none).result
        = Except.error connectionFailureMsg ∧
    (get_freecad_connection (Except.ok true)
        (get_freecad_connection (Except.ok false) none).state).result
        = Except.ok ⟨"localhost", 9875⟩ ∧
    (get_freecad_connection (Except.ok true)
        (get_freecad_connection (Except.ok false) none).state).pings = 1 := by
  exact ⟨rfl, rfl, rfl, rfl⟩

/-- Claim C8, evaluation at the failing input: when there is no active view the
introspection script prints "No active view" and the remote reports success, so
the guard's check (`not success or marker in message`) does not fire and the
guard issues the screenshot request to the remote endpoint (and even returns
its result), contrary to the claim (and to the script's own `False` result for
this case) that absence is returned without issuing the request. -/
theorem guard_requests_screenshot_with_no_active_view :
    get_active_screenshot (Except.ok (introspection_result ViewState.noActiveView))
        (Except.ok (some "IMG"))
      = ⟨some "IMG", true⟩ := by
  decide

/-- Claim C9: `create_document` invoked with name "Foo" against a remote that
reports success with document name "Foo" returns a single text item
"Document 'Foo' created successfully" — one item, no image, and (as the
handler's model has no screenshot input, mirroring that the source handler
never invokes the Availability Guard) no screenshot attempt, in either
feedback mode. -/
theorem create_document_foo_scenario :
    ∀ onlyText : Bool,
      create_document onlyText (Except.ok ()) "Foo"
          (Except.ok ⟨true, "Foo", "", "", ""⟩)
        = Except.ok [ContentItem.text "Document 'Foo' created successfully"] := by
  intro m
  rfl

/-- Claim C10: `add_screenshot_if_available` is append-only — for every input
list, screenshot value and feedback mode, the result is the input list followed
by at most one appended item, so the items already present are unchanged and
keep their order. -/
theorem add_screenshot_append_only :
    ∀ (m : Bool) (response : List ContentItem) (s : Option String),
      ∃ extra : List ContentItem,
        add_screenshot_if_available m response s = response ++ extra ∧
          extra.length ≤ 1 := by
  intro m r s
  cases m with
  | true =>
    refine ⟨[], ?_, by simp⟩
    cases s <;> simp
  | false =>
    cases s with
    | some d => exact ⟨[ContentItem.image d "image/png"], rfl, by simp⟩
    | none => exact ⟨[ContentItem.text previewUnavailableNote], rfl, by simp⟩

/-- Claim C1, counterexample: with the global feedback mode set to text-only,
`get_view` with an available screenshot still returns an envelope containing
one image item — the handler never consults the mode. -/
theorem get_view_image_in_text_only_mode :
    get_view true (Except.ok ()) "Isometric" (some "IMG")
        = Except.ok [ContentItem.image "IMG" "image/png"] ∧
    imageCount [ContentItem.image "IMG" "image/png"] = 1 := ⟨rfl, rfl⟩

/-- Claim C2, counterexample: exceptions raised below the handler boundary do
reach the hosting protocol layer — `get_parts_list` (which has no `try` block)
propagates a transport exception of the remote catalog query, and
`create_document` (like every handler) obtains the session outside its `try`
block, so an exception raised while obtaining the session propagates. -/
theorem session_and_parts_exceptions_propagate :
    get_parts_list false (Except.ok ()) (Except.error "connection refused")
        = Except.error "connection refused" ∧
    create_document false (Except.error connectionFailureMsg) "Foo"
        (Except.ok ⟨true, "Foo", "", "", ""⟩)
        = Except.error connectionFailureMsg := ⟨rfl, rfl⟩

/-- Claim C1, amended: when the global feedback mode is text-only, every
operation handler except `get_view` returns an envelope with zero image items,
regardless of screenshot availability and of the remote outcome; `get_view`
does not consult the mode and returns exactly one image item whenever a
screenshot is available (and zero otherwise). -/
theorem text_only_mode_zero_images_except_get_view :
    (∀ (conn : Except String Unit) (name : String) (res : Except String RemoteResult),
      onEnvelope (fun items => imageCount items = 0) (create_document true conn name res)) ∧
    (∀ (conn : Except String Unit) (d t n : String) (a : Option String)
        (p : Option (List (String × String))) (res : Except String RemoteResult)
        (s : Option String),
      onEnvelope (fun items => imageCount items = 0) (create_object true conn d t n a p res s)) ∧
    (∀ (conn : Except String Unit) (d n : String) (p : List (String × String))
        (res : Except String RemoteResult) (s : Option String),
      onEnvelope (fun items => imageCount items = 0) (edit_object true conn d n p res s)) ∧
    (∀ (conn : Except String Unit) (d n : String) (res : Except String RemoteResult)
        (s : Option String),
      onEnvelope (fun items => imageCount items = 0) (delete_object true conn d n res s)) ∧
    (∀ (conn : Except String Unit) (code : String) (res : Except String RemoteResult)
        (s : Option String),
      onEnvelope (fun items => imageCount items = 0) (execute_code true conn code res s)) ∧
    (∀ (conn : Except String Unit) (rp : String) (res : Except String RemoteResult)
        (s : Option String),
      onEnvelope (fun items => imageCount items = 0)
        (insert_part_from_library true conn rp res s)) ∧
    (∀ (conn : Except String Unit) (d : String) (s : Option String)
        (objs : Except String (List String)),
      onEnvelope (fun items => imageCount items = 0) (get_objects true conn d s objs)) ∧
    (∀ (conn : Except String Unit) (d n : String) (s : Option String)
        (obj : Except String String),
      onEnvelope (fun items => imageCount items = 0) (get_object true conn d n s obj)) ∧
    (∀ (conn : Except String Unit) (parts : Except String (List String)),
      onEnvelope (fun items => imageCount items = 0) (get_parts_list true conn parts)) ∧
    (∀ (conn : Except String Unit) (d sn pl : String) (bn : Option String)
        (res : Except String RemoteResult) (s : Option String),
      onEnvelope (fun items => imageCount items = 0) (create_sketch true conn d sn pl bn res s)) ∧
    (∀ (conn : Except String Unit) (d sn : String) (x y : Float)
        (res : Except String RemoteResult) (s : Option String),
      onEnvelope (fun items => imageCount items = 0) (sketch_add_point true conn d sn x y res s)) ∧
    (∀ (conn : Except String Unit) (d sn : String) (x1 y1 x2 y2 : Float)
        (res : Except String RemoteResult) (s : Option String),
      onEnvelope (fun items => imageCount items = 0)
        (sketch_add_line true conn d sn x1 y1 x2 y2 res s)) ∧
    (∀ (conn : Except String Unit) (d sn : String) (cx cy rad : Float)
        (res : Except String RemoteResult) (s : Option String),
      onEnvelope (fun items => imageCount items = 0)
        (sketch_add_circle true conn d sn cx cy rad res s)) ∧
    (∀ (conn : Except String Unit) (d sn : String) (cx cy rad sa ea : Float)
        (res : Except String RemoteResult) (s : Option String),
      onEnvelope (fun items => imageCount items = 0)
        (sketch_add_arc true conn d sn cx cy rad sa ea res s)) ∧
    (∀ (conn : Except String Unit) (d sn : String) (x1 y1 x2 y2 : Float)
        (res : Except String RemoteResult) (s : Option String),
      onEnvelope (fun items => imageCount items = 0)
        (sketch_add_rectangle true conn d sn x1 y1 x2 y2 res s)) ∧
    (∀ (conn : Except String Unit) (d sn : String) (pts : List (Float × Float)) (cl : Bool)
        (res : Except String RemoteResult) (s : Option String),
      onEnvelope (fun items => imageCount items = 0)
        (sketch_add_polyline true conn d sn pts cl res s)) ∧
    (∀ (conn : Except String Unit) (d sn : String) (cx cy mjr mnr ang : Float)
        (res : Except String RemoteResult) (s : Option String),
      onEnvelope (fun items => imageCount items = 0)
        (sketch_add_ellipse true conn d sn cx cy mjr mnr ang res s)) ∧
    (∀ (conn : Except String Unit) (d sn : String) (cx cy rad : Float) (sides : Int)
        (ang : Float) (res : Except String RemoteResult) (s : Option String),
      onEnvelope (fun items => imageCount items = 0)
        (sketch_add_regular_polygon true conn d sn cx cy rad sides ang res s)) ∧
    (∀ (conn : Except String Unit) (d sn : String) (ct : ConstraintType) (gi : List Int)
        (v : Option Float) (pis : Option (List Int)) (res : Except String RemoteResult)
        (s : Option String),
      onEnvelope (fun items => imageCount items = 0)
        (sketch_add_constraint true conn d sn ct gi v pis res s)) ∧
    (∀ (conn : Except String Unit) (d sn : String) (res : Except String RemoteResult)
        (s : Option String),
      onEnvelope (fun items => imageCount items = 0) (sketch_close_edit true conn d sn res s)) ∧
    (∀ (conn : Except String Unit) (vn : String) (s : Option String),
      onEnvelope (fun items => imageCount items = (if s.isSome then 1 else 0))
        (get_view true conn vn s)) := by
  refine ⟨?_, ?_, ?_, ?_, ?_, ?_, ?_, ?_, ?_, ?_, ?_, ?_, ?_, ?_, ?_, ?_, ?_, ?_, ?_, ?_, ?_⟩
  · intro conn name res
    cases conn with
    | error e => trivial
    | ok u =>
      cases res with
      | error e => exact rfl
      | ok r => cases hs : r.success <;> simp [create_document, hs, imageCount]
  · exact fun conn d t n a p res s => ste_text_only conn _ _ res s
  · exact fun conn d n p res s => ste_text_only conn _ _ res s
  · exact fun conn d n res s => ste_text_only conn _ _ res s
  · exact fun conn code res s => ste_text_only conn _ _ res s
  · exact fun conn rp res s => ste_text_only conn _ _ res s
  · intro conn d s objs
    cases conn with
    | error e => trivial
    | ok u =>
      cases objs with
      | error e => exact rfl
      | ok entries => simp [get_objects, imageCount]
  · intro conn d n s obj
    cases conn with
    | error e => trivial
    | ok u =>
      cases obj with
      | error e => exact rfl
      | ok inner => simp [get_object, imageCount]
  · intro conn parts
    cases conn with
    | error e => trivial
    | ok u =>
      cases parts with
      | error e => trivial
      | ok ps => cases hp : ps.isEmpty <;> simp [get_parts_list, hp, imageCount]
  · exact fun conn d sn pl bn res s => ste_text_only conn _ _ res s
  · exact fun conn d sn x y res s => ste_text_only conn _ _ res s
  · exact fun conn d sn x1 y1 x2 y2 res s => ste_text_only conn _ _ res s
  · exact fun conn d sn cx cy rad res s => ste_text_only conn _ _ res s
  · exact fun conn d sn cx cy rad sa ea res s => ste_text_only conn _ _ res s
  · exact fun conn d sn x1 y1 x2 y2 res s => ste_text_only conn _ _ res s
  · exact fun conn d sn pts cl res s => ste_text_only conn _ _ res s
  · exact fun conn d sn cx cy mjr mnr ang res s => ste_text_only conn _ _ res s
  · exact fun conn d sn cx cy rad sides ang res s => ste_text_only conn _ _ res s
  · exact fun conn d sn ct gi v pis res s => ste_text_only conn _ _ res s
  · exact fun conn d sn res s => ste_text_only conn _ _ res s
  · intro conn vn s
    cases conn with
    | error e => trivial
    | ok u =>
      cases s with
      | some d => exact rfl
      | none => exact rfl

/-- Claim C5: for every operation that delegates to the envelope builder, when
the feedback mode is not text-only and the Availability Guard returned no
screenshot, the envelope of the normal (non-exception) path ends with the fixed
explanatory note, never an image; in particular `create_object` against a
remote reporting failure with error "DuplicateName" and no screenshot returns
exactly a failure text item containing "DuplicateName" followed by the note. -/
theorem no_screenshot_final_item_is_note :
    (∀ (d t n : String) (a : Option String) (p : Option (List (String × String)))
        (r : RemoteResult),
      onEnvelope (fun items => items.getLast? = some absenceNote)
        (create_object false (Except.ok ()) d t n a p (Except.ok r) none)) ∧
    (∀ (d n : String) (p : List (String × String)) (r : RemoteResult),
      onEnvelope (fun items => items.getLast? = some absenceNote)
        (edit_object false (Except.ok ()) d n p (Except.ok r) none)) ∧
    (∀ (d n : String) (r : RemoteResult),
      onEnvelope (fun items => items.getLast? = some absenceNote)
        (delete_object false (Except.ok ()) d n (Except.ok r) none)) ∧
    (∀ (code : String) (r : RemoteResult),
      onEnvelope (fun items => items.getLast? = some absenceNote)
        (execute_code false (Except.ok ()) code (Except.ok r) none)) ∧
    (∀ (rp : String) (r : RemoteResult),
      onEnvelope (fun items => items.getLast? = some absenceNote)
        (insert_part_from_library false (Except.ok ()) rp (Except.ok r) none)) ∧
    (∀ (d : String) (entries : List String),
      onEnvelope (fun items => items.getLast? = some absenceNote)
        (get_objects false (Except.ok ()) d none (Except.ok entries))) ∧
    (∀ (d n inner : String),
      onEnvelope (fun items => items.getLast? = some absenceNote)
        (get_object false (Except.ok ()) d n none (Except.ok inner))) ∧
    (∀ (d sn pl : String) (bn : Option String) (r : RemoteResult),
      onEnvelope (fun items => items.getLast? = some absenceNote)
        (create_sketch false (Except.ok ()) d sn pl bn (Except.ok r) none)) ∧
    (∀ (d sn : String) (x y : Float) (r : RemoteResult),
      onEnvelope (fun items => items.getLast? = some absenceNote)
        (sketch_add_point false (Except.ok ()) d sn x y (Except.ok r) none)) ∧
    (∀ (d sn : String) (x1 y1 x2 y2 : Float) (r : RemoteResult),
      onEnvelope (fun items => items.getLast? = some absenceNote)
        (sketch_add_line false (Except.ok ()) d sn x1 y1 x2 y2 (Except.ok r) none)) ∧
    (∀ (d sn : String) (cx cy rad : Float) (r : RemoteResult),
      onEnvelope (fun items => items.getLast? = some absenceNote)
        (sketch_add_circle false (Except.ok ()) d sn cx cy rad (Except.ok r) none)) ∧
    (∀ (d sn : String) (cx cy rad sa ea : Float) (r : RemoteResult),
      onEnvelope (fun items => items.getLast? = some absenceNote)
        (sketch_add_arc false (Except.ok ()) d sn cx cy rad sa ea (Except.ok r) none)) ∧
    (∀ (d sn : String) (x1 y1 x2 y2 : Float) (r : RemoteResult),
      onEnvelope (fun items => items.getLast? = some absenceNote)
        (sketch_add_rectangle false (Except.ok ()) d sn x1 y1 x2 y2 (Except.ok r) none)) ∧
    (∀ (d sn : String) (pts : List (Float × Float)) (cl : Bool) (r : RemoteResult),
      onEnvelope (fun items => items.getLast? = some absenceNote)
        (sketch_add_polyline false (Except.ok ()) d sn pts cl (Except.ok r) none)) ∧
    (∀ (d sn : String) (cx cy mjr mnr ang : Float) (r : RemoteResult),
      onEnvelope (fun items => items.getLast? = some absenceNote)
        (sketch_add_ellipse false (Except.ok ()) d sn cx cy mjr mnr ang (Except.ok r) none)) ∧
    (∀ (d sn : String) (cx cy rad : Float) (sides : Int) (ang : Float) (r : RemoteResult),
      onEnvelope (fun items => items.getLast? = some absenceNote)
        (sketch_add_regular_polygon false (Except.ok ()) d sn cx cy rad sides ang
          (Except.ok r) none)) ∧
    (∀ (d sn : String) (ct : ConstraintType) (gi : List Int) (v : Option Float)
        (pis : Option (List Int)) (r : RemoteResult),
      onEnvelope (fun items => items.getLast? = some absenceNote)
        (sketch_add_constraint false (Except.ok ()) d sn ct gi v pis (Except.ok r) none)) ∧
    (∀ (d sn : String) (r : RemoteResult),
      onEnvelope (fun items => items.getLast? = some absenceNote)
        (sketch_close_edit false (Except.ok ()) d sn (Except.ok r) none)) ∧
    (create_object false (Except.ok ()) "Doc" "Part::Box" "Box" none none
        (Except.ok ⟨false, "", "", "", "DuplicateName"⟩) none
      = Except.ok [ContentItem.text "Failed to create object: DuplicateName",
          ContentItem.text previewUnavailableNote]) ∧
    strContains "Failed to create object: DuplicateName" "DuplicateName" = true := by
  refine ⟨?_, ?_, ?_, ?_, ?_, ?_, ?_, ?_, ?_, ?_, ?_, ?_, ?_, ?_, ?_, ?_, ?_, ?_, ?_, ?_⟩
  · exact fun d t n a p r => ste_last_note _ _ r
  · exact fun d n p r => ste_last_note _ _ r
  · exact fun d n r => ste_last_note _ _ r
  · exact fun code r => ste_last_note _ _ r
  · exact fun rp r => ste_last_note _ _ r
  · exact fun d entries => rfl
  · exact fun d n inner => rfl
  · exact fun d sn pl bn r => ste_last_note _ _ r
  · exact fun d sn x y r => ste_last_note _ _ r
  · exact fun d sn x1 y1 x2 y2 r => ste_last_note _ _ r
  · exact fun d sn cx cy rad r => ste_last_note _ _ r
  · exact fun d sn cx cy rad sa ea r => ste_last_note _ _ r
  · exact fun d sn x1 y1 x2 y2 r => ste_last_note _ _ r
  · exact fun d sn pts cl r => ste_last_note _ _ r
  · exact fun d sn cx cy mjr mnr ang r => ste_last_note _ _ r
  · exact fun d sn cx cy rad sides ang r => ste_last_note _ _ r
  · exact fun d sn ct gi v pis r => ste_last_note _ _ r
  · exact fun d sn r => ste_last_note _ _ r
  · rfl
  · decide

/-- Claim C2, amended: every handler with a `try` block catches an exception of
its primary remote call and converts it into a failure text item (first 19
conjuncts); but every handler obtains the session before entering its `try`
block, so an exception raised while obtaining the session propagates to the
hosting protocol layer (next 21 conjuncts); and `get_parts_list`, which has no
`try` block, also propagates an exception of the remote catalog query (last
conjunct). -/
theorem handler_exception_conversion_and_propagation :
    (∀ (m : Bool) (name e : String),
      create_document m (Except.ok ()) name (Except.error e)
        = Except.ok [ContentItem.text ("Failed to create document: " ++ e)]) ∧
    (∀ (m : Bool) (d t n : String) (a : Option String)
        (p : Option (List (String × String))) (e : String) (s : Option String),
      create_object m (Except.ok ()) d t n a p (Except.error e) s
        = Except.ok [ContentItem.text ("Failed to create object: " ++ e)]) ∧
    (∀ (m : Bool) (d n : String) (p : List (String × String)) (e : String)
        (s : Option String),
      edit_object m (Except.ok ()) d n p (Except.error e) s
        = Except.ok [ContentItem.text ("Failed to edit object: " ++ e)]) ∧
    (∀ (m : Bool) (d n e : String) (s : Option String),
      delete_object m (Except.ok ()) d n (Except.error e) s
        = Except.ok [ContentItem.text ("Failed to delete object: " ++ e)]) ∧
    (∀ (m : Bool) (code e : String) (s : Option String),
      execute_code m (Except.ok ()) code (Except.error e) s
        = Except.ok [ContentItem.text ("Failed to execute code: " ++ e)]) ∧
    (∀ (m : Bool) (rp e : String) (s : Option String),
      insert_part_from_library m (Except.ok ()) rp (Except.error e) s
        = Except.ok [ContentItem.text ("Failed to insert part from library: " ++ e)]) ∧
    (∀ (m : Bool) (d e : String) (s : Option String),
      get_objects m (Except.ok ()) d s (Except.error e)
        = Except.ok [ContentItem.text ("Failed to get objects: " ++ e)]) ∧
    (∀ (m : Bool) (d n e : String) (s : Option String),
      get_object m (Except.ok ()) d n s (Except.error e)
        = Except.ok [ContentItem.text ("Failed to get object: " ++ e)]) ∧
    (∀ (m : Bool) (d sn pl : String) (bn : Option String) (e : String) (s : Option String),
      create_sketch m (Except.ok ()) d sn pl bn (Except.error e) s
        = Except.ok [ContentItem.text ("Failed to create sketch: " ++ e)]) ∧
    (∀ (m : Bool) (d sn : String) (x y : Float) (e : String) (s : Option String),
      sketch_add_point m (Except.ok ()) d sn x y (Except.error e) s
        = Except.ok [ContentItem.text ("Failed to add point: " ++ e)]) ∧
    (∀ (m : Bool) (d sn : String) (x1 y1 x2 y2 : Float) (e : String) (s : Option String),
      sketch_add_line m (Except.ok ()) d sn x1 y1 x2 y2 (Except.error e) s
        = Except.ok [ContentItem.text ("Failed to add line: " ++ e)]) ∧
    (∀ (m : Bool) (d sn : String) (cx cy rad : Float) (e : String) (s : Option String),
      sketch_add_circle m (Except.ok ()) d sn cx cy rad (Except.error e) s
        = Except.ok [ContentItem.text ("Failed to add circle: " ++ e)]) ∧
    (∀ (m : Bool) (d sn : String) (cx cy rad sa ea : Float) (e : String) (s : Option String),
      sketch_add_arc m (Except.ok ()) d sn cx cy rad sa ea (Except.error e) s
        = Except.ok [ContentItem.text ("Failed to add arc: " ++ e)]) ∧
    (∀ (m : Bool) (d sn : String) (x1 y1 x2 y2 : Float) (e : String) (s : Option String),
      sketch_add_rectangle m (Except.ok ()) d sn x1 y1 x2 y2 (Except.error e) s
        = Except.ok [ContentItem.text ("Failed to add rectangle: " ++ e)]) ∧
    (∀ (m : Bool) (d sn : String) (pts : List (Float × Float)) (cl : Bool) (e : String)
        (s : Option String),
      sketch_add_polyline m (Except.ok ()) d sn pts cl (Except.error e) s
        = Except.ok [ContentItem.text ("Failed to add polyline: " ++ e)]) ∧
    (∀ (m : Bool) (d sn : String) (cx cy mjr mnr ang : Float) (e : String)
        (s : Option String),
      sketch_add_ellipse m (Except.ok ()) d sn cx cy mjr mnr ang (Except.error e) s
        = Except.ok [ContentItem.text ("Failed to add ellipse: " ++ e)]) ∧
    (∀ (m : Bool) (d sn : String) (cx cy rad : Float) (sides : Int) (ang : Float)
        (e : String) (s : Option String),
      sketch_add_regular_polygon m (Except.ok ()) d sn cx cy rad sides ang (Except.error e) s
        = Except.ok [ContentItem.text ("Failed to add polygon: " ++ e)]) ∧
    (∀ (m : Bool) (d sn : String) (ct : ConstraintType) (gi : List Int) (v : Option Float)
        (pis : Option (List Int)) (e : String) (s : Option String),
      sketch_add_constraint m (Except.ok ()) d sn ct gi v pis (Except.error e) s
        = Except.ok [ContentItem.text ("Failed to add constraint: " ++ e)]) ∧
    (∀ (m : Bool) (d sn e : String) (s : Option String),
      sketch_close_edit m (Except.ok ()) d sn (Except.error e) s
        = Except.ok [ContentItem.text ("Failed to close sketch editing: " ++ e)]) ∧
    (∀ (m : Bool) (ex name : String) (res : Except String RemoteResult),
      create_document m (Except.error ex) name res = Except.error ex) ∧
    (∀ (m : Bool) (ex : String) (d t n : String) (a : Option String)
        (p : Option (List (String × String))) (res : Except String RemoteResult)
        (s : Option String),
      create_object m (Except.error ex) d t n a p res s = Except.error ex) ∧
    (∀ (m : Bool) (ex : String) (d n : String) (p : List (String × String))
        (res : Except String RemoteResult) (s : Option String),
      edit_object m (Except.error ex) d n p res s = Except.error ex) ∧
    (∀ (m : Bool) (ex d n : String) (res : Except String RemoteResult) (s : Option String),
      delete_object m (Except.error ex) d n res s = Except.error ex) ∧
    (∀ (m : Bool) (ex code : String) (res : Except String RemoteResult) (s : Option String),
      execute_code m (Except.error ex) code res s = Except.error ex) ∧
    (∀ (m : Bool) (ex vn : String) (s : Option String),
      get_view m (Except.error ex) vn s = Except.error ex) ∧
    (∀ (m : Bool) (ex rp : String) (res : Except String RemoteResult) (s : Option String),
      insert_part_from_library m (Except.error ex) rp res s = Except.error ex) ∧
    (∀ (m : Bool) (ex d : String) (s : Option String) (objs : Except String (List String)),
      get_objects m (Except.error ex) d s objs = Except.error ex) ∧
    (∀ (m : Bool) (ex d n : String) (s : Option String) (obj : Except String String),
      get_object m (Except.error ex) d n s obj = Except.error ex) ∧
    (∀ (m : Bool) (ex : String) (parts : Except String (List String)),
      get_parts_list m (Except.error ex) parts = Except.error ex) ∧
    (∀ (m : Bool) (ex d sn pl : String) (bn : Option String)
        (res : Except String RemoteResult) (s : Option String),
      create_sketch m (Except.error ex) d sn pl bn res s = Except.error ex) ∧
    (∀ (m : Bool) (ex d sn : String) (x y : Float) (res : Except String RemoteResult)
        (s : Option String),
      sketch_add_point m (Except.error ex) d sn x y res s = Except.error ex) ∧
    (∀ (m : Bool) (ex d sn : String) (x1 y1 x2 y2 : Float)
        (res : Except String RemoteResult) (s : Option String),
      sketch_add_line m (Except.error ex) d sn x1 y1 x2 y2 res s = Except.error ex) ∧
    (∀ (m : Bool) (ex d sn : String) (cx cy rad : Float)
        (res : Except String RemoteResult) (s : Option String),
      sketch_add_circle m (Except.error ex) d sn cx cy rad res s = Except.error ex) ∧
    (∀ (m : Bool) (ex d sn : String) (cx cy rad sa ea : Float)
        (res : Except String RemoteResult) (s : Option String),
      sketch_add_arc m (Except.error ex) d sn cx cy rad sa ea res s = Except.error ex) ∧
    (∀ (m : Bool) (ex d sn : String) (x1 y1 x2 y2 : Float)
        (res : Except String RemoteResult) (s : Option String),
      sketch_add_rectangle m (Except.error ex) d sn x1 y1 x2 y2 res s = Except.error ex) ∧
    (∀ (m : Bool) (ex d sn : String) (pts : List (Float × Float)) (cl : Bool)
        (res : Except String RemoteResult) (s : Option String),
      sketch_add_polyline m (Except.error ex) d sn pts cl res s = Except.error ex) ∧
    (∀ (m : Bool) (ex d sn : String) (cx cy mjr mnr ang : Float)
        (res : Except String RemoteResult) (s : Option String),
      sketch_add_ellipse m (Except.error ex) d sn cx cy mjr mnr ang res s = Except.error ex) ∧
    (∀ (m : Bool) (ex d sn : String) (cx cy rad : Float) (sides : Int) (ang : Float)
        (res : Except String RemoteResult) (s : Option String),
      sketch_add_regular_polygon m (Except.error ex) d sn cx cy rad sides ang res s
        = Except.error ex) ∧
    (∀ (m : Bool) (ex d sn : String) (ct : ConstraintType) (gi : List Int)
        (v : Option Float) (pis : Option (List Int)) (res : Except String RemoteResult)
        (s : Option String),
      sketch_add_constraint m (Except.error ex) d sn ct gi v pis res s = Except.error ex) ∧
    (∀ (m : Bool) (ex d sn : String) (res : Except String RemoteResult) (s : Option String),
      sketch_close_edit m (Except.error ex) d sn res s = Except.error ex) ∧
    (∀ (m : Bool) (e : String),
      get_parts_list m (Except.ok ()) (Except.error e) = Except.error e) := by
  exact ⟨fun m name e => rfl, fun m d t n a p e s => rfl, fun m d n p e s => rfl,
    fun m d n e s => rfl, fun m code e s => rfl, fun m rp e s => rfl,
    fun m d e s => rfl, fun m d n e s => rfl, fun m d sn pl bn e s => rfl,
    fun m d sn x y e s => rfl, fun m d sn x1 y1 x2 y2 e s => rfl,
    fun m d sn cx cy rad e s => rfl, fun m d sn cx cy rad sa ea e s => rfl,
    fun m d sn x1 y1 x2 y2 e s => rfl, fun m d sn pts cl e s => rfl,
    fun m d sn cx cy mjr mnr ang e s => rfl, fun m d sn cx cy rad sides ang e s => rfl,
    fun m d sn ct gi v pis e s => rfl, fun m d sn e s => rfl,
    fun m ex name res => rfl, fun m ex d t n a p res s => rfl,
    fun m ex d n p res s => rfl, fun m ex d n res s => rfl, fun m ex code res s => rfl,
    fun m ex vn s => rfl, fun m ex rp res s => rfl, fun m ex d s objs => rfl,
    fun m ex d n s obj => rfl, fun m ex parts => rfl, fun m ex d sn pl bn res s => rfl,
    fun m ex d sn x y res s => rfl, fun m ex d sn x1 y1 x2 y2 res s => rfl,
    fun m ex d sn cx cy rad res s => rfl, fun m ex d sn cx cy rad sa ea res s => rfl,
    fun m ex d sn x1 y1 x2 y2 res s => rfl, fun m ex d sn pts cl res s => rfl,
    fun m ex d sn cx cy mjr mnr ang res s => rfl,
    fun m ex d sn cx cy rad sides ang res s => rfl,
    fun m ex d sn ct gi v pis res s => rfl, fun m ex d sn res s => rfl,
    fun m e => rfl⟩

/-- Claim C4: for every operation and every combination of session outcome,
remote outcome, screenshot presence and feedback mode, any envelope a handler
returns contains at least one item, at most one image item, and never both an
image item and the absence-explanation text item. -/
theorem envelope_well_formed_all_handlers :
    (∀ (m : Bool) (conn : Except String Unit) (name : String)
        (res : Except String RemoteResult),
      onEnvelope wellFormedEnvelope (create_document m conn name res)) ∧
    (∀ (m : Bool) (conn : Except String Unit) (d t n : String) (a : Option String)
        (p : Option (List (String × String))) (res : Except String RemoteResult)
        (s : Option String),
      onEnvelope wellFormedEnvelope (create_object m conn d t n a p res s)) ∧
    (∀ (m : Bool) (conn : Except String Unit) (d n : String) (p : List (String × String))
        (res : Except String RemoteResult) (s : Option String),
      onEnvelope wellFormedEnvelope (edit_object m conn d n p res s)) ∧
    (∀ (m : Bool) (conn : Except String Unit) (d n : String)
        (res : Except String RemoteResult) (s : Option String),
      onEnvelope wellFormedEnvelope (delete_object m conn d n res s)) ∧
    (∀ (m : Bool) (conn : Except String Unit) (code : String)
        (res : Except String RemoteResult) (s : Option String),
      onEnvelope wellFormedEnvelope (execute_code m conn code res s)) ∧
    (∀ (m : Bool) (conn : Except String Unit) (vn : String) (s : Option String),
      onEnvelope wellFormedEnvelope (get_view m conn vn s)) ∧
    (∀ (m : Bool) (conn : Except String Unit) (rp : String)
        (res : Except String RemoteResult) (s : Option String),
      onEnvelope wellFormedEnvelope (insert_part_from_library m conn rp res s)) ∧
    (∀ (m : Bool) (conn : Except String Unit) (d : String) (s : Option String)
        (objs : Except String (List String)),
      onEnvelope wellFormedEnvelope (get_objects m conn d s objs)) ∧
    (∀ (m : Bool) (conn : Except String Unit) (d n : String) (s : Option String)
        (obj : Except String String),
      onEnvelope wellFormedEnvelope (get_object m conn d n s obj)) ∧
    (∀ (m : Bool) (conn : Except String Unit) (parts : Except String (List String)),
      onEnvelope wellFormedEnvelope (get_parts_list m conn parts)) ∧
    (∀ (m : Bool) (conn : Except String Unit) (d sn pl : String) (bn : Option String)
        (res : Except String RemoteResult) (s : Option String),
      onEnvelope wellFormedEnvelope (create_sketch m conn d sn pl bn res s)) ∧
    (∀ (m : Bool) (conn : Except String Unit) (d sn : String) (x y : Float)
        (res : Except String RemoteResult) (s : Option String),
      onEnvelope wellFormedEnvelope (sketch_add_point m conn d sn x y res s)) ∧
    (∀ (m : Bool) (conn : Except String Unit) (d sn : String) (x1 y1 x2 y2 : Float)
        (res : Except String RemoteResult) (s : Option String),
      onEnvelope wellFormedEnvelope (sketch_add_line m conn d sn x1 y1 x2 y2 res s)) ∧
    (∀ (m : Bool) (conn : Except String Unit) (d sn : String) (cx cy rad : Float)
        (res : Except String RemoteResult) (s : Option String),
      onEnvelope wellFormedEnvelope (sketch_add_circle m conn d sn cx cy rad res s)) ∧
    (∀ (m : Bool) (conn : Except String Unit) (d sn : String) (cx cy rad sa ea : Float)
        (res : Except String RemoteResult) (s : Option String),
      onEnvelope wellFormedEnvelope (sketch_add_arc m conn d sn cx cy rad sa ea res s)) ∧
    (∀ (m : Bool) (conn : Except String Unit) (d sn : String) (x1 y1 x2 y2 : Float)
        (res : Except String RemoteResult) (s : Option String),
      onEnvelope wellFormedEnvelope (sketch_add_rectangle m conn d sn x1 y1 x2 y2 res s)) ∧
    (∀ (m : Bool) (conn : Except String Unit) (d sn : String) (pts : List (Float × Float))
        (cl : Bool) (res : Except String RemoteResult) (s : Option String),
      onEnvelope wellFormedEnvelope (sketch_add_polyline m conn d sn pts cl res s)) ∧
    (∀ (m : Bool) (conn : Except String Unit) (d sn : String) (cx cy mjr mnr ang : Float)
        (res : Except String RemoteResult) (s : Option String),
      onEnvelope wellFormedEnvelope (sketch_add_ellipse m conn d sn cx cy mjr mnr ang res s)) ∧
    (∀ (m : Bool) (conn : Except String Unit) (d sn : String) (cx cy rad : Float)
        (sides : Int) (ang : Float) (res : Except String RemoteResult) (s : Option String),
      onEnvelope wellFormedEnvelope
        (sketch_add_regular_polygon m conn d sn cx cy rad sides ang res s)) ∧
    (∀ (m : Bool) (conn : Except String Unit) (d sn : String) (ct : ConstraintType)
        (gi : List Int) (v : Option Float) (pis : Option (List Int))
        (res : Except String RemoteResult) (s : Option String),
      onEnvelope wellFormedEnvelope (sketch_add_constraint m conn d sn ct gi v pis res s)) ∧
    (∀ (m : Bool) (conn : Except String Unit) (d sn : String)
        (res : Except String RemoteResult) (s : Option String),
      onEnvelope wellFormedEnvelope (sketch_close_edit m conn d sn res s)) := by
  refine ⟨?_, ?_, ?_, ?_, ?_, ?_, ?_, ?_, ?_, ?_, ?_, ?_, ?_, ?_, ?_, ?_, ?_, ?_, ?_, ?_, ?_⟩
  · intro m conn name res
    cases conn with
    | error e => trivial
    | ok u =>
      cases res with
      | error e => exact wf_single _
      | ok r =>
        cases hs : r.success <;>
          simp only [create_document, hs, Bool.false_eq_true, ite_false, ite_true,
            onEnvelope_ok]
        · exact wf_single _
        · exact wf_single _
  · exact fun m conn d t n a p res s => ste_wellFormed m conn _ _ res s
      (fun r => ne_note_of_head _ _ rfl (by decide))
      (fun e => ne_note_of_head _ _ rfl (by decide))
  · exact fun m conn d n p res s => ste_wellFormed m conn _ _ res s
      (fun r => ne_note_of_head _ _ rfl (by decide))
      (fun e => ne_note_of_head _ _ rfl (by decide))
  · exact fun m conn d n res s => ste_wellFormed m conn _ _ res s
      (fun r => ne_note_of_head _ _ rfl (by decide))
      (fun e => ne_note_of_head _ _ rfl (by decide))
  · exact fun m conn code res s => ste_wellFormed m conn _ _ res s
      (fun r => ne_note_of_head _ _ rfl (by decide))
      (fun e => ne_note_of_head _ _ rfl (by decide))
  · intro m conn vn s
    cases conn with
    | error e => trivial
    | ok u =>
      cases s with
      | some d => exact wf_single_image d "image/png"
      | none => exact wf_single _
  · exact fun m conn rp res s => ste_wellFormed m conn _ _ res s
      (fun r => ne_note_of_head _ _ rfl (by decide))
      (fun e => ne_note_of_head _ _ rfl (by decide))
  · intro m conn d s objs
    cases conn with
    | error e => trivial
    | ok u =>
      cases objs with
      | error e => exact wf_single _
      | ok entries => exact wf_builder m s _ (ne_note_of_head _ _ rfl (by decide))
  · intro m conn d n s obj
    cases conn with
    | error e => trivial
    | ok u =>
      cases obj with
      | error e => exact wf_single _
      | ok inner => exact wf_builder m s _ (ne_note_of_head _ _ rfl (by decide))
  · intro m conn parts
    cases conn with
    | error e => trivial
    | ok u =>
      cases parts with
      | error e => trivial
      | ok ps =>
        cases hp : ps.isEmpty <;>
          simp only [get_parts_list, hp, Bool.false_eq_true, ite_false, ite_true,
            onEnvelope_ok]
        · exact wf_single _
        · exact wf_single _
  · exact fun m conn d sn pl bn res s => ste_wellFormed m conn _ _ res s
      (fun r => ne_note_of_head _ _ rfl (by decide))
      (fun e => ne_note_of_head _ _ rfl (by decide))
  · exact fun m conn d sn x y res s => ste_wellFormed m conn _ _ res s
      (fun r => ne_note_of_head _ _ rfl (by decide))
      (fun e => ne_note_of_head _ _ rfl (by decide))
  · exact fun m conn d sn x1 y1 x2 y2 res s => ste_wellFormed m conn _ _ res s
      (fun r => ne_note_of_head _ _ rfl (by decide))
      (fun e => ne_note_of_head _ _ rfl (by decide))
  · exact fun m conn d sn cx cy rad res s => ste_wellFormed m conn _ _ res s
      (fun r => ne_note_of_head _ _ rfl (by decide))
      (fun e => ne_note_of_head _ _ rfl (by decide))
  · exact fun m conn d sn cx cy rad sa ea res s => ste_wellFormed m conn _ _ res s
      (fun r => ne_note_of_head _ _ rfl (by decide))
      (fun e => ne_note_of_head _ _ rfl (by decide))
  · exact fun m conn d sn x1 y1 x2 y2 res s => ste_wellFormed m conn _ _ res s
      (fun r => ne_note_of_head _ _ rfl (by decide))
      (fun e => ne_note_of_head _ _ rfl (by decide))
  · exact fun m conn d sn pts cl res s => ste_wellFormed m conn _ _ res s
      (fun r => ne_note_of_head _ _ rfl (by decide))
      (fun e => ne_note_of_head _ _ rfl (by decide))
  · exact fun m conn d sn cx cy mjr mnr ang res s => ste_wellFormed m conn _ _ res s
      (fun r => ne_note_of_head _ _ rfl (by decide))
      (fun e => ne_note_of_head _ _ rfl (by decide))
  · exact fun m conn d sn cx cy rad sides ang res s => ste_wellFormed m conn _ _ res s
      (fun r => ne_note_of_head _ _ rfl (by decide))
      (fun e => ne_note_of_head _ _ rfl (by decide))
  · exact fun m conn d sn ct gi v pis res s => ste_wellFormed m conn _ _ res s
      (fun r => by cases ct <;> exact ne_note_of_head _ _ rfl (by decide))
      (fun e => ne_note_of_head _ _ rfl (by decide))
  · exact fun m conn d sn res s => ste_wellFormed m conn _ _ res s
      (fun r => ne_note_of_head _ _ rfl (by decide))
      (fun e => ne_note_of_head _ _ rfl (by decide))

end FreeCADMCP
